import Mathlib

/-!
Shallow embedding of `smac/epm/gaussian_process.py` (class `GaussianProcess`).

Conventions of the embedding:
* numpy float scalars are modelled by `FVal`: either a finite rational or one
  of the non-finite IEEE values (`nan`, `inf`, `ninf`); plain finite-only
  quantities (test inputs, hyperparameter vectors θ, covariance entries) are
  modelled directly by `ℚ`.
* a Python exception is modelled by `PyResult.exn` carrying the message.
* the external collaborators declared out of scope by the specification
  (the skopt `GaussianProcessRegressor` backend, the kernel, the prior, the
  L-BFGS-B optimizer, the output normalizer of the base class) are modelled
  as abstract values or function parameters; the code under `src/` is
  embedded literally on top of them.
* methods that assign to `self` are embedded as explicit state passing on
  `GPState`; methods with no assignment to `self` return the state unchanged.
-/

/-- A numpy floating-point scalar: a finite rational or a non-finite value. -/
inductive FVal where
  | fin : ℚ → FVal
  | nan : FVal
  | inf : FVal
  | ninf : FVal
deriving DecidableEq, Repr

/-- IEEE-style addition on `FVal` (`+` / `+=` on numpy scalars and entries):
finite values add as rationals, `nan` propagates, opposite infinities give
`nan`, any other sum with an infinity keeps that infinity. -/
def FVal.add : FVal → FVal → FVal
  | .nan, _ => .nan
  | .fin a, .fin b => .fin (a + b)
  | .fin _, .inf => .inf
  | .fin _, .ninf => .ninf
  | .fin _, .nan => .nan
  | .inf, .fin _ => .inf
  | .inf, .inf => .inf
  | .inf, .ninf => .nan
  | .inf, .nan => .nan
  | .ninf, .fin _ => .ninf
  | .ninf, .inf => .nan
  | .ninf, .ninf => .ninf
  | .ninf, .nan => .nan

/-- Unary minus on a numpy scalar. -/
def FVal.neg : FVal → FVal
  | .fin a => .fin (-a)
  | .nan => .nan
  | .inf => .ninf
  | .ninf => .inf

/-- The test `np.isfinite` on a scalar. -/
def FVal.isFinite : FVal → Bool
  | .fin _ => true
  | _ => false

/-- Result of a Python call: a value, or a raised exception with its message. -/
inductive PyResult (α : Type) where
  | ok : α → PyResult α
  | exn : String → PyResult α
deriving DecidableEq, Repr

/-- A numpy array of one or two dimensions (all entries finite rationals). -/
inductive NpArr where
  | one : List ℚ → NpArr
  | two : List (List ℚ) → NpArr
deriving DecidableEq, Repr

/-- The function `np.diag` applied to a two-dimensional array: its main diagonal. -/
def npDiag (m : List (List ℚ)) : List ℚ :=
  (List.range m.length).map fun i => (m.getD i []).getD i 0

/-- The call `np.clip(v, lo, np.inf)`: the componentwise maximum with `lo`.
Like numpy's, this function RETURNS the clipped array and does not modify
its argument. -/
def npClip (v : List ℚ) (lo : ℚ) : List ℚ :=
  v.map fun x => max x lo

/-- The call `np.squeeze(a, axis=1)`: drops axis 1 when it has size one; raises
`ValueError` when axis 1 exists but has a different size, and an axis error
on a one-dimensional array. -/
def npSqueezeAx1 : NpArr → PyResult NpArr
  | .one _ => .exn "AxisError: axis 1 is out of bounds for array of dimension 1"
  | .two m =>
    if m.all (fun row => row.length = 1) then
      .ok (.one (m.map fun row => row.headD 0))
    else
      .exn "ValueError: cannot select an axis to squeeze out which has size not equal to one"

/-- The kernel contract consumed by the model: hyperparameter vector θ in log
space and per-hyperparameter bounds in log space. -/
structure Kernel where
  theta : List ℚ
  bounds : List (ℚ × ℚ)

/-- The hyperparameter prior contract (`smac.epm.gp_base_prior.Prior`):
log-probability and gradient over the log-space hyperparameter vector. -/
structure Prior where
  lnprob : List ℚ → FVal
  gradient : List ℚ → List FVal

/-- The fitted covariance backend contract (the skopt
`GaussianProcessRegressor`, an external collaborator): its kernel (with
current θ and log-space bounds), gradient-aware marginal-likelihood
evaluation, posterior mean/covariance prediction, and posterior sampling
(`sample_y X_test n_samples`, returning a raw numpy array). -/
structure Backend where
  kernel : Kernel
  log_marginal_likelihood : List ℚ → FVal × List FVal
  predictCov : List (List ℚ) → List ℚ × List (List ℚ)
  sample_y : List (List ℚ) → Nat → NpArr

/-- The assignment `self.gp.kernel.theta = hypers` (line 111 of the source): install a new
hyperparameter vector on the backend's kernel. (In the Python source
`self.gp.kernel` aliases `self.kernel`; no claim depends on the alias, so the
embedding updates the backend's copy.) -/
def Backend.setTheta (b : Backend) (hypers : List ℚ) : Backend :=
  { b with kernel := { b.kernel with theta := hypers } }

/-- The mutable instance state of `GaussianProcess` set up in `__init__`:
`self.kernel`, `self.gp` (None before any fit), `self.prior`,
`self.normalize_y`, `self.hypers`, `self.is_trained`, and the normalization
parameters stored by the base class's `_normalize_y`. -/
structure GPState where
  kernel : Kernel
  gp : Option Backend
  prior : Option Prior
  normalize_y : Bool
  hypers : List ℚ
  is_trained : Bool
  y_mean : ℚ
  y_std : ℚ

/-- Modelled from the spec: `smac.utils.constants.VERY_SMALL_NUMBER` is not
under `src/`; the spec describes it as "a tiny positive constant (e.g.
1e-10)". -/
def VERY_SMALL_NUMBER : ℚ := 1 / 10 ^ 10

/-- The fixed penalty constant `1e25` used by `_nll` for non-finite values. -/
def PENALTY : ℚ := 10 ^ 25

/-- The method `GaussianProcess._nll(theta)` (lines 116-145): query the backend's
`log_marginal_likelihood(theta, eval_gradient=True)`, add the prior's
log-probability and gradient when a prior is configured, and return either
the fixed penalty pair (when the combined value or gradient is non-finite)
or the negated value and gradient. `lmlFn` stands for
`self.gp.log_marginal_likelihood` and `prior` for `self.prior`. -/
def GaussianProcess_nll (lmlFn : List ℚ → FVal × List FVal) (prior : Option Prior)
    (theta : List ℚ) : FVal × List FVal :=
  let r := lmlFn theta
  let lml := match prior with
    | some p => (r.1).add (p.lnprob theta)
    | none => r.1
  let grad := match prior with
    | some p => List.zipWith FVal.add r.2 (p.gradient theta)
    | none => r.2
  if !lml.isFinite || !(grad.all FVal.isFinite) then
    (.fin PENALTY, List.replicate theta.length (.fin PENALTY))
  else
    (lml.neg, grad.map FVal.neg)

/-- The combined scalar of `_nll` before the finiteness guard: the backend's
log marginal likelihood plus the prior's log-probability when a prior is
configured. -/
def combinedLml (lmlFn : List ℚ → FVal × List FVal) (prior : Option Prior)
    (theta : List ℚ) : FVal :=
  match prior with
  | some p => ((lmlFn theta).1).add (p.lnprob theta)
  | none => (lmlFn theta).1

/-- The combined gradient of `_nll` before the finiteness guard: the
likelihood gradient plus the prior's gradient when a prior is configured. -/
def combinedGrad (lmlFn : List ℚ → FVal × List FVal) (prior : Option Prior)
    (theta : List ℚ) : List FVal :=
  match prior with
  | some p => List.zipWith FVal.add (lmlFn theta).2 (p.gradient theta)
  | none => (lmlFn theta).2

/-- The method `GaussianProcess._optimize()` (lines 147-161): start the bounded
optimizer from `self.gp.kernel.theta`, hand it per-hyperparameter bounds
`(exp(lo), exp(hi))` built from the kernel's log-space bounds, let it
minimize `self._nll`, and return the first component (θ) of its result.
`opt` stands for `scipy.optimize.fmin_l_bfgs_b` (returning
`(theta, f_opt, info)`), `rexp` for `np.exp`, `gp` for `self.gp` and
`prior` for `self.prior`. -/
def GaussianProcess_optimize
    (opt : (List ℚ → FVal × List FVal) → List ℚ → List (ℚ × ℚ) → List ℚ × FVal × Unit)
    (rexp : ℚ → ℚ) (gp : Backend) (prior : Option Prior) : List ℚ :=
  let p0 := gp.kernel.theta
  let bounds := gp.kernel.bounds.map fun b => (rexp b.1, rexp b.2)
  let r := opt (GaussianProcess_nll gp.log_marginal_likelihood prior) p0 bounds
  r.1

/-- Modelled from the spec: the base class helper `_untransform_y` (declared
an out-of-scope external collaborator, not under `src/`): "mean scales and
shifts by the stored std/mean; variance scales by std²". -/
def untransform_y2 (y_mean y_std : ℚ) (mu v : List ℚ) : List ℚ × List ℚ :=
  (mu.map fun m => m * y_std + y_mean, v.map fun x => x * y_std ^ 2)

/-- Modelled from the spec: the one-argument form of `_untransform_y` used on
sampled function values: "mean/std rescale; no variance floor applied". -/
def untransform_y1 (y_mean y_std : ℚ) (v : List ℚ) : List ℚ :=
  v.map fun m => m * y_std + y_mean

/-- The rescale `untransform_y1` applied to each sampled function of a raw array. -/
def untransformArr (y_mean y_std : ℚ) : NpArr → NpArr
  | .one v => .one (untransform_y1 y_mean y_std v)
  | .two m => .two (m.map (untransform_y1 y_mean y_std))

/-- The method `GaussianProcess._predict(X_test, full_cov)` (lines 163-196): raise when
not trained; otherwise query `self.gp.predict(X_test, return_cov=True)`,
take `np.diag` of the covariance, untransform when normalization is enabled,
evaluate `np.clip(var, VERY_SMALL_NUMBER, np.inf)` WITHOUT reassigning its
result (exactly as the source does), and return `(mu, var)`. The method
assigns nothing to `self`, so the embedding returns the state it was given;
the `full_cov` parameter is accepted but, as in the source body, never
read. -/
def GaussianProcess_predict (st : GPState) (X_test : List (List ℚ)) (full_cov : Bool) :
    GPState × PyResult (List ℚ × List ℚ) :=
  if st.is_trained = false then
    (st, .exn "Model has to be trained first!")
  else
    match st.gp with
    | none => (st, .exn "AttributeError: NoneType object has no attribute predict")
    | some gp =>
      let mv := gp.predictCov X_test
      let mu := mv.1
      let var := npDiag mv.2
      let muvar := if st.normalize_y then untransform_y2 st.y_mean st.y_std mu var
                   else (mu, var)
      let _ := full_cov
      let _ := npClip muvar.2 VERY_SMALL_NUMBER
      (st, .ok muvar)

/-- The method `GaussianProcess.sample_functions(X_test, n_funcs)` (lines 198-228):
raise when not trained; otherwise draw `self.gp.sample_y(X_test,
n_samples=n_funcs, random_state=self.rng)`, apply `np.squeeze(·, axis=1)`,
untransform when normalization is enabled, and promote a one-dimensional
result to a 1×N array (`funcs[None, :]`). The model-owned random source
`self.rng` is threaded inside the backend's `sample_y` and not modelled
separately. -/
def GaussianProcess_sample_functions (st : GPState) (X_test : List (List ℚ))
    (n_funcs : Nat) : PyResult NpArr :=
  if st.is_trained = false then
    .exn "Model has to be trained first!"
  else
    match st.gp with
    | none => .exn "AttributeError: NoneType object has no attribute sample_y"
    | some gp =>
      let funcs := gp.sample_y X_test n_funcs
      match npSqueezeAx1 funcs with
      | .exn e => .exn e
      | .ok funcs =>
        let funcs := if st.normalize_y then untransformArr st.y_mean st.y_std funcs
                     else funcs
        match funcs with
        | .one v => .ok (.two [v])
        | .two m => .ok (.two m)

/-- Lines 95-114 of `GaussianProcess._train(X, y, do_optimize)`, everything
after target normalization: REPLACE `self.gp` by a freshly constructed
backend (`mk self.kernel` stands for `GaussianProcessRegressor(
kernel=self.kernel, ...)`), fit it, choose `self.hypers` by `_optimize` or
as the backend's current θ, install them with
`self.gp.kernel.theta = self.hypers`, fit a second time, and only then set
`self.is_trained = True`. A raising `fit` is modelled by `PyResult`: the
exception aborts the call but every assignment to `self` made before it
persists, exactly as in Python. -/
def trainFitPhase
    (mk : Kernel → Backend)
    (fit : Backend → List (List ℚ) → List ℚ → PyResult Backend)
    (opt : (List ℚ → FVal × List FVal) → List ℚ → List (ℚ × ℚ) → List ℚ × FVal × Unit)
    (rexp : ℚ → ℚ)
    (st : GPState) (X : List (List ℚ)) (y : List ℚ) (do_optimize : Bool) :
    GPState × PyResult Unit :=
  let g0 := mk st.kernel
  let st := { st with gp := some g0 }
  match fit g0 X y with
  | .exn e => (st, .exn e)
  | .ok g1 =>
    let st := { st with gp := some g1 }
    let hypers := if do_optimize then GaussianProcess_optimize opt rexp g1 st.prior
                  else g1.kernel.theta
    let st := { st with hypers := hypers }
    let g2 := g1.setTheta hypers
    let st := { st with gp := some g2 }
    match fit g2 X y with
    | .exn e => (st, .exn e)
    | .ok g3 => ({ st with gp := some g3, is_trained := true }, .ok ())

/-- The method `GaussianProcess._train(X, y, do_optimize)` (lines 73-114): when
`self.normalize_y` is set, store this call's normalization parameters and
continue with the normalized targets (lines 92-93; the base-class normalizer
is out of scope, modelled by the abstract parameter `normFn` returning the
stored mean, the stored std and the normalized targets); the remainder of
the method is `trainFitPhase`. -/
def GaussianProcess_train
    (mk : Kernel → Backend)
    (fit : Backend → List (List ℚ) → List ℚ → PyResult Backend)
    (opt : (List ℚ → FVal × List FVal) → List ℚ → List (ℚ × ℚ) → List ℚ × FVal × Unit)
    (rexp : ℚ → ℚ)
    (normFn : List ℚ → ℚ × ℚ × List ℚ)
    (st : GPState) (X : List (List ℚ)) (y : List ℚ) (do_optimize : Bool) :
    GPState × PyResult Unit :=
  let sty := if st.normalize_y then
      let r := normFn y
      ({ st with y_mean := r.1, y_std := r.2.1 }, r.2.2)
    else (st, y)
  trainFitPhase mk fit opt rexp sty.1 X sty.2 do_optimize

/-! ## Concrete collaborators used by witnesses and counterexamples -/

/-- A one-hyperparameter kernel with log-space bounds. -/
def kernelW : Kernel := { theta := [0], bounds := [(0, 1)] }

/-- A fitted backend whose posterior at any test matrix is mean `[0]`,
covariance `[[1]]`. -/
def backendW : Backend :=
  { kernel := kernelW,
    log_marginal_likelihood := fun _ => (.fin 0, [.fin 0]),
    predictCov := fun _ => ([0], [[1]]),
    sample_y := fun _ _ => .two [[0]] }

/-- An optimizer stub that terminates at its starting point. -/
def optW : (List ℚ → FVal × List FVal) → List ℚ → List (ℚ × ℚ) → List ℚ × FVal × Unit :=
  fun _ p0 _ => (p0, .fin 0, ())

/-- A normalizer stub: mean 0, std 1, targets unchanged. -/
def normId : List ℚ → ℚ × ℚ × List ℚ := fun y => (0, 1, y)

/-- A freshly constructed, never-fitted model state (`__init__` with
`normalize_y = True`). -/
def stW9 : GPState :=
  { kernel := kernelW, gp := none, prior := none, normalize_y := true,
    hypers := [], is_trained := false, y_mean := 0, y_std := 1 }

/-! ## C4 and C5: the negative-log-marginal-likelihood objective -/

/-- C4: whenever the combined scalar (backend log marginal likelihood plus
optional prior log-probability) or any component of the combined gradient is
non-finite, `_nll` returns the fixed penalty scalar `1e25` together with a
gradient vector of the same length as θ whose every component equals `1e25`;
being a total function of θ, it raises no exception. -/
theorem nll_nonfinite_penalty (lmlFn : List ℚ → FVal × List FVal)
    (prior : Option Prior) (theta : List ℚ)
    (h : (combinedLml lmlFn prior theta).isFinite = false ∨
         ∃ g ∈ combinedGrad lmlFn prior theta, g.isFinite = false) :
    GaussianProcess_nll lmlFn prior theta =
      (.fin PENALTY, List.replicate theta.length (.fin PENALTY)) := by
  have hcond : (!(combinedLml lmlFn prior theta).isFinite
      || !((combinedGrad lmlFn prior theta).all FVal.isFinite)) = true := by
    rcases h with h1 | ⟨g, hg, hgf⟩
    · simp [h1]
    · have h2 : (combinedGrad lmlFn prior theta).all FVal.isFinite = false :=
        List.all_eq_false.2 ⟨g, hg, by simp [hgf]⟩
      simp [h2]
  cases prior with
  | none =>
    simp only [combinedLml, combinedGrad] at hcond
    simp only [GaussianProcess_nll, hcond]
    rfl
  | some p =>
    simp only [combinedLml, combinedGrad] at hcond
    simp only [GaussianProcess_nll, hcond]
    rfl

/-- A backend likelihood returning `nan` with a finite gradient. -/
def lmlFnW4 : List ℚ → FVal × List FVal := fun _ => (FVal.nan, [FVal.fin 0])

/-- Witness for C4: at θ = [0, 0] and a backend likelihood evaluating to
`nan`, `_nll` returns the penalty scalar and the length-2 penalty
gradient. -/
theorem nll_nonfinite_penalty_witness :
    GaussianProcess_nll lmlFnW4 none [0, 0] =
      (.fin PENALTY, [.fin PENALTY, .fin PENALTY]) :=
  nll_nonfinite_penalty lmlFnW4 none [0, 0] (Or.inl (by decide))

/-- C5: whenever the combined value and every combined gradient component are
finite, `_nll` returns exactly the negated combined value and the negated
combined gradient, where "combined" adds the prior's log-probability and
gradient when a prior is configured and is the backend's likelihood and
gradient alone when none is. -/
theorem nll_finite_negation (lmlFn : List ℚ → FVal × List FVal)
    (prior : Option Prior) (theta : List ℚ)
    (h1 : (combinedLml lmlFn prior theta).isFinite = true)
    (h2 : ∀ g ∈ combinedGrad lmlFn prior theta, g.isFinite = true) :
    GaussianProcess_nll lmlFn prior theta =
      ((combinedLml lmlFn prior theta).neg,
        (combinedGrad lmlFn prior theta).map FVal.neg) ∧
    (prior = none → combinedLml lmlFn prior theta = (lmlFn theta).1 ∧
      combinedGrad lmlFn prior theta = (lmlFn theta).2) := by
  constructor
  · have hcond : (!(combinedLml lmlFn prior theta).isFinite
        || !((combinedGrad lmlFn prior theta).all FVal.isFinite)) = false := by
      simp [h1, List.all_eq_true.2 h2]
    cases prior with
    | none =>
      simp only [combinedLml, combinedGrad] at hcond ⊢
      simp only [GaussianProcess_nll, hcond]
      rfl
    | some p =>
      simp only [combinedLml, combinedGrad] at hcond ⊢
      simp only [GaussianProcess_nll, hcond]
      rfl
  · rintro rfl
    exact ⟨rfl, rfl⟩

/-- A backend likelihood returning value 3 with gradient [1]. -/
def lmlFnW5 : List ℚ → FVal × List FVal := fun _ => (FVal.fin 3, [FVal.fin 1])

/-- A prior with log-probability 2 and gradient [5]. -/
def priorW5 : Prior := { lnprob := fun _ => .fin 2, gradient := fun _ => [.fin 5] }

/-- Witness for C5: with likelihood 3 (gradient [1]) and prior 2 (gradient
[5]) at θ = [0], `_nll` returns the negated combined pair, which evaluates
to `-(3 + 2) = -5` with gradient `[-(1 + 5)] = [-6]`. -/
theorem nll_finite_negation_witness :
    GaussianProcess_nll lmlFnW5 (some priorW5) [0] =
      ((combinedLml lmlFnW5 (some priorW5) [0]).neg,
        (combinedGrad lmlFnW5 (some priorW5) [0]).map FVal.neg) ∧
    ((combinedLml lmlFnW5 (some priorW5) [0]).neg,
      (combinedGrad lmlFnW5 (some priorW5) [0]).map FVal.neg) =
      (.fin (-5), [.fin (-6)]) :=
  ⟨(nll_finite_negation lmlFnW5 (some priorW5) [0] (by decide) (by decide)).1,
    by norm_num [combinedLml, combinedGrad, lmlFnW5, priorW5, FVal.neg, FVal.add]⟩

/-! ## C7: arguments handed to the bounded optimizer -/

/-- C7: `_optimize` invokes the bounded optimizer on exactly the objective
`_nll` over log-space θ, the starting point `self.gp.kernel.theta` (the
backend's current log-space θ), and the bound list obtained by exponentiating
each kernel log-space bound pair componentwise; each handed bound pair is
`(exp lo, exp hi)` of the corresponding declared pair. -/
theorem optimize_start_and_exp_bounds
    (opt : (List ℚ → FVal × List FVal) → List ℚ → List (ℚ × ℚ) → List ℚ × FVal × Unit)
    (rexp : ℚ → ℚ) (gp : Backend) (prior : Option Prior) :
    GaussianProcess_optimize opt rexp gp prior =
      (opt (GaussianProcess_nll gp.log_marginal_likelihood prior) gp.kernel.theta
        (gp.kernel.bounds.map fun b => (rexp b.1, rexp b.2))).1 ∧
    ∀ i (h : i < gp.kernel.bounds.length),
      (gp.kernel.bounds.map fun b => (rexp b.1, rexp b.2)).get ⟨i, by simpa using h⟩ =
        (rexp (gp.kernel.bounds.get ⟨i, h⟩).1, rexp (gp.kernel.bounds.get ⟨i, h⟩).2) := by
  refine ⟨rfl, ?_⟩
  intro i h
  simp [List.get_eq_getElem, List.getElem_map]

/-- Witness for C7: with a recording optimizer stub that returns its starting
point, the concrete backend `backendW` (θ = [0], log-bounds [(0, 1)]) and
`rexp = id`, the equation and the bound at index 0 evaluate concretely. -/
theorem optimize_start_and_exp_bounds_witness :
    GaussianProcess_optimize optW id backendW none =
      (optW (GaussianProcess_nll backendW.log_marginal_likelihood none)
        backendW.kernel.theta
        (backendW.kernel.bounds.map fun b => (id b.1, id b.2))).1 ∧
    (backendW.kernel.bounds.map fun b => (id b.1, id b.2)).get ⟨0, by decide⟩ =
      (id (backendW.kernel.bounds.get ⟨0, by decide⟩).1,
        id (backendW.kernel.bounds.get ⟨0, by decide⟩).2) :=
  ⟨(optimize_start_and_exp_bounds optW id backendW none).1,
    (optimize_start_and_exp_bounds optW id backendW none).2 0 (by decide)⟩

/-! ## C9: use before training -/

/-- C9: on any model state whose trained flag is false, both `_predict` and
`sample_functions` immediately raise the "Model has to be trained first!"
error, for every test matrix, `full_cov` flag and sample count, and return
no result. -/
theorem untrained_raises (st : GPState) (X : List (List ℚ)) (fc : Bool) (n : Nat)
    (h : st.is_trained = false) :
    (GaussianProcess_predict st X fc).2 = .exn "Model has to be trained first!" ∧
    GaussianProcess_sample_functions st X n = .exn "Model has to be trained first!" := by
  constructor
  · simp [GaussianProcess_predict, h]
  · simp [GaussianProcess_sample_functions, h]

/-- Witness for C9: the freshly constructed state `stW9` is untrained and
both queries raise the error. -/
theorem untrained_raises_witness :
    (GaussianProcess_predict stW9 [[0]] false).2 = .exn "Model has to be trained first!" ∧
    GaussianProcess_sample_functions stW9 [[0]] 1 = .exn "Model has to be trained first!" :=
  untrained_raises stW9 [[0]] false 1 rfl

/-! ## C10: `_predict` is a read-only query -/

/-- C10: on any trained model state, `_predict` leaves the entire fitted
model state unchanged: the fitted backend, the stored hyperparameter vector,
the trained flag, and the normalization parameters are identical before and
after the call. -/
theorem predict_frame (st : GPState) (X : List (List ℚ)) (fc : Bool)
    (h : st.is_trained = true) :
    (GaussianProcess_predict st X fc).1.gp = st.gp ∧
    (GaussianProcess_predict st X fc).1.hypers = st.hypers ∧
    (GaussianProcess_predict st X fc).1.is_trained = st.is_trained ∧
    (GaussianProcess_predict st X fc).1.y_mean = st.y_mean ∧
    (GaussianProcess_predict st X fc).1.y_std = st.y_std := by
  have hst : (GaussianProcess_predict st X fc).1 = st := by
    unfold GaussianProcess_predict
    split
    · rfl
    · split <;> rfl
  rw [hst]
  exact ⟨rfl, rfl, rfl, rfl, rfl⟩

/-- A trained model state over `backendW` with normalization disabled. -/
def stW10 : GPState :=
  { kernel := kernelW, gp := some backendW, prior := none, normalize_y := false,
    hypers := [0], is_trained := true, y_mean := 0, y_std := 1 }

/-- Witness for C10: the trained state `stW10` is returned unchanged by a
concrete `_predict` call. -/
theorem predict_frame_witness :
    stW10.is_trained = true ∧
    (GaussianProcess_predict stW10 [[0]] false).1.gp = stW10.gp ∧
    (GaussianProcess_predict stW10 [[0]] false).1.is_trained = stW10.is_trained :=
  ⟨rfl, (predict_frame stW10 [[0]] false rfl).1,
    (predict_frame stW10 [[0]] false rfl).2.2.1⟩

/-! ## C1: the variance floor is never applied (line 194 discards the
clipped array) -/

/-- A fitted backend whose posterior covariance diagonal at the test point is
the negative value `-1`. -/
def backendC1 : Backend :=
  { kernel := kernelW,
    log_marginal_likelihood := fun _ => (.fin 0, [.fin 0]),
    predictCov := fun _ => ([0], [[-1]]),
    sample_y := fun _ _ => .two [[0]] }

/-- A trained model state over `backendC1` with normalization disabled. -/
def stC1 : GPState :=
  { kernel := kernelW, gp := some backendC1, prior := none, normalize_y := false,
    hypers := [0], is_trained := true, y_mean := 0, y_std := 1 }

/-- C1 is refuted by the code: `np.clip(var, VERY_SMALL_NUMBER, np.inf)` on
line 194 is evaluated but its result is never assigned, so on a trained model
whose backend covariance diagonal is `[-1]`, `_predict` returns the variance
`[-1]`, strictly below the positive floor — even though applying `npClip`
to that variance would have raised it to the floor. -/
theorem predict_variance_not_clipped :
    (GaussianProcess_predict stC1 [[0]] false).2 = .ok ([0], [-1]) ∧
    (-1 : ℚ) < VERY_SMALL_NUMBER ∧
    npClip [-1] VERY_SMALL_NUMBER = [VERY_SMALL_NUMBER] := by
  refine ⟨rfl, by norm_num [VERY_SMALL_NUMBER], ?_⟩
  simp [npClip]
  norm_num [VERY_SMALL_NUMBER]

/-! ## C2: the `full_cov` parameter is ignored -/

/-- A fitted backend with the non-diagonal 2×2 posterior covariance
`[[1, 2], [3, 4]]`. -/
def backendC2 : Backend :=
  { kernel := kernelW,
    log_marginal_likelihood := fun _ => (.fin 0, [.fin 0]),
    predictCov := fun _ => ([0, 0], [[1, 2], [3, 4]]),
    sample_y := fun _ _ => .two [[0]] }

/-- A trained model state over `backendC2` with normalization disabled. -/
def stC2 : GPState :=
  { kernel := kernelW, gp := some backendC2, prior := none, normalize_y := false,
    hypers := [0], is_trained := true, y_mean := 0, y_std := 1 }

/-- C2 is refuted by the code: the `full_cov` parameter of `_predict` is
never read, so with the backend covariance `[[1, 2], [3, 4]]` the call with
`full_cov = true` still returns the length-2 diagonal `[1, 4]`, identical to
the `full_cov = false` call, instead of the full 2×2 matrix the docstring
promises. -/
theorem predict_full_cov_ignored :
    (GaussianProcess_predict stC2 [[0], [1]] true).2 = .ok ([0, 0], [1, 4]) ∧
    (GaussianProcess_predict stC2 [[0], [1]] true).2 =
      (GaussianProcess_predict stC2 [[0], [1]] false).2 :=
  ⟨rfl, rfl⟩

/-! ## C3: `sample_functions` breaks for more than one sample -/

/-- A fitted backend whose `sample_y` has the shape documented for the
underlying regressor on the one-dimensional targets this model fits:
an (N × n_samples) array — here N = 2, with sampled columns `[1, 3]` and
`[2, 4]`. -/
def backendC3 : Backend :=
  { kernel := kernelW,
    log_marginal_likelihood := fun _ => (.fin 0, [.fin 0]),
    predictCov := fun _ => ([0, 0], [[1, 0], [0, 1]]),
    sample_y := fun _ n => if n = 1 then .two [[1], [3]] else .two [[1, 2], [3, 4]] }

/-- A trained model state over `backendC3` with normalization disabled. -/
def stC3 : GPState :=
  { kernel := kernelW, gp := some backendC3, prior := none, normalize_y := false,
    hypers := [0], is_trained := true, y_mean := 0, y_std := 1 }

/-- C3 is refuted by the code for every `n_funcs ≥ 2`: with the backend's
(N × n_funcs) sample array, `n_funcs = 1` indeed yields a 1×N matrix, but at
`n_funcs = 2` the call `np.squeeze(funcs, axis=1)` raises `ValueError`
(axis 1 has size 2), so no 2×N matrix is ever returned. -/
theorem sample_functions_two_funcs_raises :
    GaussianProcess_sample_functions stC3 [[0], [1]] 1 = .ok (.two [[1, 3]]) ∧
    GaussianProcess_sample_functions stC3 [[0], [1]] 2 =
      .exn "ValueError: cannot select an axis to squeeze out which has size not equal to one" :=
  ⟨rfl, rfl⟩

/-! ## C6: a failed retrain does not preserve the previous fitted state -/

/-- The previously fitted backend: posterior mean `[5]` at the test point. -/
def backendOld : Backend :=
  { kernel := kernelW,
    log_marginal_likelihood := fun _ => (.fin 0, [.fin 0]),
    predictCov := fun _ => ([5], [[1]]),
    sample_y := fun _ _ => .two [[5]] }

/-- The freshly constructed backend a retrain installs: posterior mean `[7]`
at the test point. -/
def backendNew : Backend :=
  { kernel := kernelW,
    log_marginal_likelihood := fun _ => (.fin 0, [.fin 0]),
    predictCov := fun _ => ([7], [[1]]),
    sample_y := fun _ _ => .two [[7]] }

/-- A successfully trained model state holding `backendOld`. -/
def stOld : GPState :=
  { kernel := kernelW, gp := some backendOld, prior := none, normalize_y := false,
    hypers := [0], is_trained := true, y_mean := 0, y_std := 1 }

/-- The regressor constructor used by the retrain (stands for
`GaussianProcessRegressor(kernel=self.kernel, ...)`). -/
def mkNew : Kernel → Backend := fun _ => backendNew

/-- A backend fit that always raises the factorization error. -/
def fitFail : Backend → List (List ℚ) → List ℚ → PyResult Backend :=
  fun _ _ _ => .exn "LinAlgError: Matrix is not positive definite"

/-- Counterexample to C6: retraining the trained state `stOld` with a fit
that raises aborts the call with the error, yet `_predict` on the resulting
state no longer behaves as it did before the retrain — `self.gp` was
reassigned to the fresh backend before the failing fit, so the previous
fitted state is not intact. -/
theorem failed_retrain_changes_predict :
    stOld.is_trained = true ∧
    (GaussianProcess_train mkNew fitFail optW id normId stOld [[0]] [0] true).2 =
      .exn "LinAlgError: Matrix is not positive definite" ∧
    (GaussianProcess_predict
        (GaussianProcess_train mkNew fitFail optW id normId stOld [[0]] [0] true).1
        [[0]] false).2 ≠
      (GaussianProcess_predict stOld [[0]] false).2 := by
  exact ⟨rfl, rfl, by decide⟩

/-- C6 amended: when the first backend fit of a (re)training call raises, the
call aborts with that error, but `self.gp` has by then already been replaced
by the freshly constructed backend and the normalization parameters by this
call's values; the trained flag merely keeps its previous value. -/
theorem train_first_fit_failure_state
    (mk : Kernel → Backend) (fit : Backend → List (List ℚ) → List ℚ → PyResult Backend)
    (opt : (List ℚ → FVal × List FVal) → List ℚ → List (ℚ × ℚ) → List ℚ × FVal × Unit)
    (rexp : ℚ → ℚ) (normFn : List ℚ → ℚ × ℚ × List ℚ)
    (st : GPState) (X : List (List ℚ)) (y : List ℚ) (d : Bool) (e : String)
    (h : fit (mk st.kernel) X (if st.normalize_y then (normFn y).2.2 else y) = .exn e) :
    (GaussianProcess_train mk fit opt rexp normFn st X y d).1.gp = some (mk st.kernel) ∧
    (GaussianProcess_train mk fit opt rexp normFn st X y d).1.is_trained = st.is_trained ∧
    (GaussianProcess_train mk fit opt rexp normFn st X y d).2 = .exn e := by
  cases hn : st.normalize_y with
  | false =>
    simp only [hn, Bool.false_eq_true, if_false] at h
    simp only [GaussianProcess_train, trainFitPhase, hn, Bool.false_eq_true, if_false, h]
    exact ⟨trivial, trivial, trivial⟩
  | true =>
    simp only [hn, if_true] at h
    simp only [GaussianProcess_train, trainFitPhase, hn, if_true, h]
    exact ⟨trivial, trivial, trivial⟩

/-- Witness for the amended C6: the concrete failed retrain of `stOld` leaves
the fresh backend installed, the trained flag at its previous value, and
surfaces the factorization error. -/
theorem train_first_fit_failure_state_witness :
    (GaussianProcess_train mkNew fitFail optW id normId stOld [[0]] [0] true).1.gp =
      some (mkNew stOld.kernel) ∧
    (GaussianProcess_train mkNew fitFail optW id normId stOld [[0]] [0] true).1.is_trained =
      stOld.is_trained ∧
    (GaussianProcess_train mkNew fitFail optW id normId stOld [[0]] [0] true).2 =
      .exn "LinAlgError: Matrix is not positive definite" :=
  train_first_fit_failure_state mkNew fitFail optW id normId stOld [[0]] [0] true
    "LinAlgError: Matrix is not positive definite" rfl


/-! ## C8: every training call fits the backend twice -/

/-- Helper: when the first fit raises, `trainFitPhase` stops there with the
fresh backend installed. -/
theorem trainFitPhase_first_exn
    (mk : Kernel → Backend) (fit : Backend → List (List ℚ) → List ℚ → PyResult Backend)
    (opt : (List ℚ → FVal × List FVal) → List ℚ → List (ℚ × ℚ) → List ℚ × FVal × Unit)
    (rexp : ℚ → ℚ) (st : GPState) (X : List (List ℚ)) (y : List ℚ) (d : Bool) (e : String)
    (h : fit (mk st.kernel) X y = .exn e) :
    trainFitPhase mk fit opt rexp st X y d =
      ({ st with gp := some (mk st.kernel) }, .exn e) := by
  simp only [trainFitPhase, h]

/-- Helper: when the first fit succeeds and the second raises, `trainFitPhase`
stops with θ* installed on the backend but the trained flag untouched. -/
theorem trainFitPhase_second_exn
    (mk : Kernel → Backend) (fit : Backend → List (List ℚ) → List ℚ → PyResult Backend)
    (opt : (List ℚ → FVal × List FVal) → List ℚ → List (ℚ × ℚ) → List ℚ × FVal × Unit)
    (rexp : ℚ → ℚ) (st : GPState) (X : List (List ℚ)) (y : List ℚ) (d : Bool)
    (g1 : Backend) (e : String)
    (h1 : fit (mk st.kernel) X y = .ok g1)
    (h2 : fit (g1.setTheta (if d then GaussianProcess_optimize opt rexp g1 st.prior
        else g1.kernel.theta)) X y = .exn e) :
    trainFitPhase mk fit opt rexp st X y d =
      ({ st with
          gp := some (g1.setTheta (if d then GaussianProcess_optimize opt rexp g1 st.prior
            else g1.kernel.theta)),
          hypers := (if d then GaussianProcess_optimize opt rexp g1 st.prior
            else g1.kernel.theta) }, .exn e) := by
  simp only [trainFitPhase, h1, h2]

/-- Helper: when both fits succeed, `trainFitPhase` stores the second fit's
backend and θ* and sets the trained flag. -/
theorem trainFitPhase_both_ok
    (mk : Kernel → Backend) (fit : Backend → List (List ℚ) → List ℚ → PyResult Backend)
    (opt : (List ℚ → FVal × List FVal) → List ℚ → List (ℚ × ℚ) → List ℚ × FVal × Unit)
    (rexp : ℚ → ℚ) (st : GPState) (X : List (List ℚ)) (y : List ℚ) (d : Bool)
    (g1 g2 : Backend)
    (h1 : fit (mk st.kernel) X y = .ok g1)
    (h2 : fit (g1.setTheta (if d then GaussianProcess_optimize opt rexp g1 st.prior
        else g1.kernel.theta)) X y = .ok g2) :
    trainFitPhase mk fit opt rexp st X y d =
      ({ st with
          gp := some g2,
          hypers := (if d then GaussianProcess_optimize opt rexp g1 st.prior
            else g1.kernel.theta),
          is_trained := true }, .ok ()) := by
  simp only [trainFitPhase, h1, h2]

/-- C8: starting from an untrained state, `_train` ends with the trained flag
true exactly when the backend is fitted twice successfully: a first fit of
the freshly constructed backend (which carries the kernel's current
hyperparameters) on `(X, normalized y)`, and — after θ* is chosen by
`_optimize` when `do_optimize` is true and as the backend's current θ
otherwise — a second fit, on the same `(X, normalized y)`, of that backend
with θ* installed; the final backend and stored hyperparameters are those of
the second fit. -/
theorem train_two_fits
    (mk : Kernel → Backend) (fit : Backend → List (List ℚ) → List ℚ → PyResult Backend)
    (opt : (List ℚ → FVal × List FVal) → List ℚ → List (ℚ × ℚ) → List ℚ × FVal × Unit)
    (rexp : ℚ → ℚ) (normFn : List ℚ → ℚ × ℚ × List ℚ)
    (st : GPState) (X : List (List ℚ)) (y : List ℚ) (d : Bool)
    (hnt : st.is_trained = false) :
    (GaussianProcess_train mk fit opt rexp normFn st X y d).1.is_trained = true ↔
      ∃ g1 g2,
        fit (mk st.kernel) X (if st.normalize_y then (normFn y).2.2 else y) = .ok g1 ∧
        (GaussianProcess_train mk fit opt rexp normFn st X y d).1.hypers =
          (if d then GaussianProcess_optimize opt rexp g1 st.prior
            else g1.kernel.theta) ∧
        fit (g1.setTheta (if d then GaussianProcess_optimize opt rexp g1 st.prior
            else g1.kernel.theta)) X
          (if st.normalize_y then (normFn y).2.2 else y) = .ok g2 ∧
        (GaussianProcess_train mk fit opt rexp normFn st X y d).1.gp = some g2 := by
  cases hn : st.normalize_y with
  | false =>
    simp only [GaussianProcess_train, hn, Bool.false_eq_true, if_false]
    cases h1 : fit (mk st.kernel) X y with
    | exn e =>
      rw [trainFitPhase_first_exn mk fit opt rexp st X y d e h1]
      simp only [hnt]
      constructor
      · intro habs
        exact absurd habs (by simp)
      · rintro ⟨g1, g2, hfit, -, -, -⟩
        exact PyResult.noConfusion hfit
    | ok g1 =>
      cases h2 : fit (g1.setTheta (if d then GaussianProcess_optimize opt rexp g1 st.prior
          else g1.kernel.theta)) X y with
      | exn e =>
        rw [trainFitPhase_second_exn mk fit opt rexp st X y d g1 e h1 h2]
        simp only [hnt]
        constructor
        · intro habs
          exact absurd habs (by simp)
        · rintro ⟨g1b, g2, hfit1, -, hfit2, -⟩
          injection hfit1 with hg
          subst hg
          rw [h2] at hfit2
          exact PyResult.noConfusion hfit2
      | ok g2 =>
        rw [trainFitPhase_both_ok mk fit opt rexp st X y d g1 g2 h1 h2]
        constructor
        · intro _
          exact ⟨g1, g2, rfl, rfl, h2, rfl⟩
        · intro _
          rfl
  | true =>
    simp only [GaussianProcess_train, hn, if_true]
    cases h1 : fit (mk st.kernel) X (normFn y).2.2 with
    | exn e =>
      rw [trainFitPhase_first_exn mk fit opt rexp
        { st with normalize_y := true, y_mean := (normFn y).1, y_std := (normFn y).2.1 }
        X (normFn y).2.2 d e h1]
      simp only [hnt]
      constructor
      · intro habs
        exact absurd habs (by simp)
      · rintro ⟨g1, g2, hfit, -, -, -⟩
        exact PyResult.noConfusion hfit
    | ok g1 =>
      cases h2 : fit (g1.setTheta (if d then GaussianProcess_optimize opt rexp g1 st.prior
          else g1.kernel.theta)) X (normFn y).2.2 with
      | exn e =>
        rw [trainFitPhase_second_exn mk fit opt rexp
          { st with normalize_y := true, y_mean := (normFn y).1, y_std := (normFn y).2.1 }
          X (normFn y).2.2 d g1 e h1 h2]
        simp only [hnt]
        constructor
        · intro habs
          exact absurd habs (by simp)
        · rintro ⟨g1b, g2, hfit1, -, hfit2, -⟩
          injection hfit1 with hg
          subst hg
          rw [h2] at hfit2
          exact PyResult.noConfusion hfit2
      | ok g2 =>
        rw [trainFitPhase_both_ok mk fit opt rexp
          { st with normalize_y := true, y_mean := (normFn y).1, y_std := (normFn y).2.1 }
          X (normFn y).2.2 d g1 g2 h1 h2]
        constructor
        · intro _
          exact ⟨g1, g2, rfl, rfl, h2, rfl⟩
        · intro _
          rfl

/-- A backend fit that always succeeds and returns its backend unchanged. -/
def fitOk : Backend → List (List ℚ) → List ℚ → PyResult Backend := fun b _ _ => .ok b

/-- A regressor constructor producing `backendW`. -/
def mkW : Kernel → Backend := fun _ => backendW

/-- Witness for C8: training the untrained state `stW9` with an
always-succeeding fit and `do_optimize = false` ends trained, through the
two exhibited fits. -/
theorem train_two_fits_witness :
    (GaussianProcess_train mkW fitOk optW id normId stW9 [[0]] [0] false).1.is_trained = true :=
  (train_two_fits mkW fitOk optW id normId stW9 [[0]] [0] false rfl).mpr
    ⟨backendW, backendW.setTheta backendW.kernel.theta, rfl, rfl, rfl, rfl⟩
